import Mathlib

/-!
Verification development for the ChronoFlip timer-execution engine.

The definitions below are a shallow embedding of the repository's core:
* the `useTimer` hook (timestamp-based elapsed-time tracking, pause/resume
  bookkeeping, the 100ms tick that recomputes the displayed value and checks
  completion),
* the running-screen orchestration (`TimerRunningScreen`): per-run fired-alert
  set, the alert-checking effect, segment completion handling, the segment
  transition, the scheduled-start gate, and
* the app-level `startEvent` control entry point.

Wall-clock instants are modelled as integers (milliseconds, `Date.now()`).
`Math.floor(x / 1000)` on integer millisecond values is `Int.fdiv x 1000`.
React state updates issued inside one interval callback are batched: the
values observed by effects after the callback are the final ones, so each
tick is modelled as a single state-to-state function whose result holds the
post-batch values.  A `start()` call and the effect that arms
`startTimeRef.current = Date.now()` run in the same task and are modelled at
a single instant.
-/

inductive TimerMode
  | countdown
  | countup
deriving DecidableEq, Repr

inductive SegmentStatus
  | idle
  | running
  | paused
  | completed
deriving DecidableEq, Repr

structure SpeechColorAlert where
  id : String
  timeInSeconds : Int
  color : String
  background : Bool
  flash : Bool
  sound : Bool
  label : String
deriving DecidableEq, Repr

structure Segment where
  id : String
  name : String
  durationSeconds : Int
  mode : TimerMode
  colorAlerts : List SpeechColorAlert
  soundEnabled : Bool
  flashEnabled : Bool
  tickEnabled : Bool
deriving DecidableEq, Repr

structure SpeechEvent where
  id : String
  title : String
  date : String
  startTime : String
  endTime : String
  segments : List Segment
  scheduledStartTime : Option Int
deriving DecidableEq, Repr

/-- The mutable state of one `useTimer` instance: the React state
(`status`, `timeInSeconds`) together with the timestamp refs
(`startTimeRef`, `pausedAtRef`, `totalPausedMsRef`, `initialTimeRef`,
`lastTickSecondRef`). -/
structure TimerState where
  status : SegmentStatus
  timeInSeconds : Int
  startTime : Option Int
  pausedAt : Option Int
  totalPausedMs : Int
  initialTime : Int
  lastTickSecond : Option Int
deriving DecidableEq, Repr

/-- Initial display value: `segment.mode === 'countdown' ? segment.durationSeconds : 0`. -/
def initialDisplay (seg : Segment) : Int :=
  match seg.mode with
  | .countdown => seg.durationSeconds
  | .countup => 0

/-- `start()` from `useTimer`, fused with the tick effect that sets
`startTimeRef.current = Date.now()` upon entering `running` (same task,
modelled at one instant `now`). -/
def startTimer (seg : Segment) (now : Int) : TimerState :=
  { status := .running
    timeInSeconds := initialDisplay seg
    startTime := some now
    pausedAt := none
    totalPausedMs := 0
    initialTime := seg.durationSeconds
    lastTickSecond := none }

/-- The `useTimer` reset-on-segment-change effect: clears every ref, sets the
display to the initial value and, when `autoStart`, enters `running` (which
arms `startTimeRef` at `now`), otherwise `idle` with `startTimeRef` null. -/
def resetForSegment (seg : Segment) (autoStart : Bool) (now : Int) : TimerState :=
  if autoStart then startTimer seg now
  else { startTimer seg now with status := .idle, startTime := none }

/-- `pause()`: unconditionally records `pausedAtRef.current = Date.now()` and
sets status `paused`.  The source has no already-paused guard. -/
def pauseTimer (now : Int) (s : TimerState) : TimerState :=
  { s with pausedAt := some now, status := .paused }

/-- `resume()`: if `pausedAtRef.current` is set, adds `now - pausedAt` to
`totalPausedMsRef` and clears it; always sets status `running`. -/
def resumeTimer (now : Int) (s : TimerState) : TimerState :=
  match s.pausedAt with
  | some p =>
      { s with totalPausedMs := s.totalPausedMs + (now - p)
               pausedAt := none
               status := .running }
  | none => { s with status := .running }

/-- The elapsed-time expression recomputed on every tick:
`now - startTimeRef.current - totalPausedMsRef.current`. -/
def elapsedMsAt (s : TimerState) (now : Int) : Int :=
  now - s.startTime.getD 0 - s.totalPausedMs

/-- Displayed value and status produced by one tick body, given the freshly
recomputed elapsed seconds.  For countdown:
`remaining = max(0, initial - elapsedSeconds)`, completing when
`remaining <= 0`.  For countup: display `elapsedSeconds`, and when
`durationSeconds > 0 && elapsedSeconds >= durationSeconds` clamp the display
to `durationSeconds` and complete.  (The status result `.running` in the
non-completing branches is the unchanged status: the tick body only runs
while `running`.) -/
def timerTickCore (seg : Segment) (elapsedSeconds : Int) (initialTime : Int) :
    Int × SegmentStatus :=
  match seg.mode with
  | .countdown =>
      let remaining := max 0 (initialTime - elapsedSeconds)
      if remaining ≤ 0 then (remaining, .completed) else (remaining, .running)
  | .countup =>
      if seg.durationSeconds > 0 ∧ elapsedSeconds ≥ seg.durationSeconds then
        (seg.durationSeconds, .completed)
      else (elapsedSeconds, .running)

/-- One delivered interval tick at wall-clock `now`.  The interval only
exists while `running` with `startTimeRef` armed; outside that the state is
untouched (no callback runs). -/
def timerTick (seg : Segment) (now : Int) (s : TimerState) : TimerState :=
  if s.status ≠ .running then s
  else
    match s.startTime with
    | none => s
    | some st =>
        let elapsedSeconds := Int.fdiv (now - st - s.totalPausedMs) 1000
        let r := timerTickCore seg elapsedSeconds s.initialTime
        { s with lastTickSecond := some elapsedSeconds
                 timeInSeconds := r.1
                 status := r.2 }

/-- A timestamped call into the timer: `start`, `pause`, `resume`, or a
delivered polling tick. -/
inductive TimerOp
  | start (t : Int)
  | pause (t : Int)
  | resume (t : Int)
  | tick (t : Int)
deriving DecidableEq, Repr

def opTime : TimerOp → Int
  | .start t => t
  | .pause t => t
  | .resume t => t
  | .tick t => t

def applyTimerOp (seg : Segment) (s : TimerState) : TimerOp → TimerState
  | .start t => startTimer seg t
  | .pause t => pauseTimer t s
  | .resume t => resumeTimer t s
  | .tick t => timerTick seg t s

def runTimerOps (seg : Segment) (s : TimerState) (ops : List TimerOp) : TimerState :=
  ops.foldl (applyTimerOp seg) s

/-- No further `start` call in the sequence (a single run). -/
def noStart : List TimerOp → Bool
  | [] => true
  | .start _ :: _ => false
  | _ :: rest => noStart rest

/-- Well-formed continuation of a run: timestamps never decrease, `pause`
only while not paused, `resume` only while paused, ticks only while not
paused (the interval is cancelled on `pause`). -/
def wfOps (paused : Bool) (last : Int) : List TimerOp → Bool
  | [] => true
  | op :: rest =>
      match op with
      | .start t => decide (last ≤ t) && wfOps false t rest
      | .pause t => decide (last ≤ t) && !paused && wfOps true t rest
      | .resume t => decide (last ≤ t) && paused && wfOps false t rest
      | .tick t => decide (last ≤ t) && !paused && wfOps false t rest

/-- Sum of the completed pause intervals described by an op sequence, given
the currently open pause instant (if any).  Mirrors the code: a second
`pause` overwrites the open pause instant; `resume` credits
`now - pausedAt`. -/
def pausedMsAcc (acc : Option Int) : List TimerOp → Int
  | [] => 0
  | .start _ :: rest => pausedMsAcc none rest
  | .pause t :: rest => pausedMsAcc (some t) rest
  | .resume t :: rest =>
      match acc with
      | some p => (t - p) + pausedMsAcc none rest
      | none => pausedMsAcc none rest
  | .tick _ :: rest => pausedMsAcc acc rest

/-- Sum of all completed pause intervals of a run (no pause open at the
start). -/
def completedPausedMs (ops : List TimerOp) : Int :=
  pausedMsAcc none ops

/-- The state of the `TimerRunningScreen` component that the claims touch:
segment cursor, transition/completion flags, the per-run fired-alert set
(`triggeredAlertIdsRef`), the persistent alert color, the schedule-gate flag
and the embedded timer. -/
structure ScreenState where
  currentSegmentIndex : Int
  isTransitioning : Bool
  allComplete : Bool
  triggeredAlertIds : List String
  activeAlertColor : String
  isWaitingSchedule : Bool
  timer : TimerState
deriving DecidableEq, Repr

/-- `event.segments[currentSegmentIndex] ?? null`: a negative or
past-the-end index yields null. -/
def currentSegment (ev : SpeechEvent) (i : Int) : Option Segment :=
  if 0 ≤ i then ev.segments.get? i.toNat else none

/-- Stable insertion step for sorting alerts by threshold. -/
def insertAlertBy (le : SpeechColorAlert → SpeechColorAlert → Bool)
    (a : SpeechColorAlert) : List SpeechColorAlert → List SpeechColorAlert
  | [] => [a]
  | b :: rest => if le a b then a :: b :: rest else b :: insertAlertBy le a rest

def sortAlertsBy (le : SpeechColorAlert → SpeechColorAlert → Bool)
    (l : List SpeechColorAlert) : List SpeechColorAlert :=
  l.foldr (insertAlertBy le) []

/-- `sortedAlerts`: descending thresholds for countdown
(`(a, b) => b.timeInSeconds - a.timeInSeconds`), ascending for countup. -/
def sortedAlerts (seg : Segment) : List SpeechColorAlert :=
  match seg.mode with
  | .countdown => sortAlertsBy (fun a b => a.timeInSeconds ≥ b.timeInSeconds) seg.colorAlerts
  | .countup => sortAlertsBy (fun a b => a.timeInSeconds ≤ b.timeInSeconds) seg.colorAlerts

/-- `shouldTrigger`: countdown fires when `remaining <= threshold`, countup
when `elapsed >= threshold` (crossing-based, not exact match). -/
def alertShouldTrigger (mode : TimerMode) (time : Int) (a : SpeechColorAlert) : Bool :=
  match mode with
  | .countdown => time ≤ a.timeInSeconds
  | .countup => time ≥ a.timeInSeconds

structure AlertCheckResult where
  triggeredAlertIds : List String
  newlyFired : List String
  activeAlertColor : String
deriving DecidableEq, Repr

/-- The loop body of the alert-checking effect: walk the sorted alerts,
skip the already-fired ones, mark and report the ones whose threshold is
crossed, and apply the color of fired alerts with `background` set. -/
def runAlertLoop (mode : TimerMode) (time : Int) (fired : List String)
    (color : String) : List SpeechColorAlert → AlertCheckResult
  | [] => ⟨fired, [], color⟩
  | a :: rest =>
      if a.id ∈ fired then runAlertLoop mode time fired color rest
      else if alertShouldTrigger mode time a then
        let r := runAlertLoop mode time (a.id :: fired)
          (if a.background then a.color else color) rest
        ⟨r.triggeredAlertIds, a.id :: r.newlyFired, r.activeAlertColor⟩
      else runAlertLoop mode time fired color rest

/-- The alert-checking effect, including its guard:
`if (timer.status !== 'running' || !currentSegment || sortedAlerts.length === 0) return`. -/
def alertCheckStep (seg : Segment) (s : ScreenState) : ScreenState :=
  if s.timer.status ≠ .running ∨ sortedAlerts seg = [] then s
  else
    let r := runAlertLoop seg.mode s.timer.timeInSeconds s.triggeredAlertIds
      s.activeAlertColor (sortedAlerts seg)
    { s with triggeredAlertIds := r.triggeredAlertIds
             activeAlertColor := r.activeAlertColor }

/-- `handleSegmentComplete`: on a non-last segment enter the transition
overlay, on the last segment mark the whole event complete.  Sound and
flash side effects are external collaborators. -/
def handleSegmentComplete (ev : SpeechEvent) (s : ScreenState) : ScreenState :=
  match currentSegment ev s.currentSegmentIndex with
  | none => s
  | some _ =>
      if s.currentSegmentIndex < (ev.segments.length : Int) - 1 then
        { s with isTransitioning := true }
      else { s with allComplete := true }

/-- One delivered 100ms tick observed at screen level: the timer tick body
runs (recompute elapsed, update display, completion check + `onComplete`),
then, after the batched re-render, the alert-checking effect runs with the
new values — skipped when the tick left `running`. -/
def screenTick (ev : SpeechEvent) (now : Int) (s : ScreenState) : ScreenState :=
  match currentSegment ev s.currentSegmentIndex with
  | none => s
  | some seg =>
      if s.timer.status ≠ .running then s
      else
        let t2 := timerTick seg now s.timer
        let s1 := { s with timer := t2 }
        let s2 := if t2.status = .completed then handleSegmentComplete ev s1 else s1
        alertCheckStep seg s2

/-- `SegmentTransition`'s default presentation duration (ms). -/
def transitionDurationMs : Int := 2500

/-- `SegmentTransition` polls every 50ms and calls `onComplete` at the first
poll where the elapsed time reaches the duration. -/
def transitionComplete (startT now : Int) : Bool :=
  transitionDurationMs ≤ now - startT

/-- `handleTransitionComplete` plus the effects its index bump triggers:
the segment-change effect clears the fired-alert set and the alert color,
and the `useTimer` reset effect instantiates a fresh runner for the new
segment, auto-starting it when the schedule gate is not pending. -/
def handleTransitionComplete (ev : SpeechEvent) (now : Int) (s : ScreenState) : ScreenState :=
  let idx := s.currentSegmentIndex + 1
  match currentSegment ev idx with
  | none =>
      { s with isTransitioning := false, currentSegmentIndex := idx,
               triggeredAlertIds := [], activeAlertColor := "" }
  | some seg =>
      { s with isTransitioning := false, currentSegmentIndex := idx,
               triggeredAlertIds := [], activeAlertColor := "",
               timer := resetForSegment seg (!s.isWaitingSchedule) now }

/-- The Space-key handler branch that restarts the current segment:
`if (timer.status === 'idle' || allComplete) timer.start()`.  After the
re-render the alert-checking effect runs with the fresh display value; the
fired-alert set is NOT reset (no effect clears it on a same-segment
restart). -/
def restartStep (ev : SpeechEvent) (now : Int) (s : ScreenState) : ScreenState :=
  match currentSegment ev s.currentSegmentIndex with
  | none => s
  | some seg =>
      if s.timer.status = .idle ∨ s.allComplete then
        alertCheckStep seg { s with timer := startTimer seg now }
      else s

/-- `useTimer`'s `useState` initial value when mounted with no segment. -/
def emptyTimer : TimerState :=
  { status := .idle, timeInSeconds := 0, startTime := none, pausedAt := none,
    totalPausedMs := 0, initialTime := 0, lastTickSecond := none }

/-- `isWaitingSchedule` initializer:
`event.scheduledStartTime != null && event.scheduledStartTime > Date.now()`. -/
def initialIsWaitingSchedule (ev : SpeechEvent) (now : Int) : Bool :=
  match ev.scheduledStartTime with
  | none => false
  | some t => now < t

/-- Mounting `TimerRunningScreen` at `startSegmentIndex`: fresh fired-alert
set, schedule gate from the event's scheduled start, and the timer reset
effect for the initial segment (auto-start unless gated). -/
def initScreen (ev : SpeechEvent) (startIdx : Int) (now : Int) : ScreenState :=
  let waiting := initialIsWaitingSchedule ev now
  { currentSegmentIndex := startIdx
    isTransitioning := false
    allComplete := false
    triggeredAlertIds := []
    activeAlertColor := ""
    isWaitingSchedule := waiting
    timer :=
      match currentSegment ev startIdx with
      | some seg => resetForSegment seg (!waiting) now
      | none => emptyTimer }

/-- One iteration of the schedule-countdown effect (run immediately and then
once per second while waiting): release the gate when
`scheduledStartTime - now <= 0`; releasing flips `autoStart`, which re-runs
the `useTimer` reset effect and auto-starts the current segment. -/
def scheduleTick (ev : SpeechEvent) (now : Int) (s : ScreenState) : ScreenState :=
  match ev.scheduledStartTime with
  | none => s
  | some sched =>
      if !s.isWaitingSchedule then s
      else if sched - now ≤ 0 then
        { s with isWaitingSchedule := false
                 timer :=
                   match currentSegment ev s.currentSegmentIndex with
                   | some seg => resetForSegment seg true now
                   | none => s.timer }
      else s

inductive Screen
  | eventList
  | eventSettings
  | segmentSettings
  | timerRunning
deriving DecidableEq, Repr

/-- The slice of `AppState` that `startEvent` touches. -/
structure AppState where
  events : List SpeechEvent
  currentScreen : Screen
  activeEventId : Option String
  runningEventId : Option String
  runningSegmentIndex : Int
deriving DecidableEq, Repr

/-- `startEvent(eventId, startSegmentIndex = 0)`: unconditionally records the
ids and the requested index and switches to the running screen.  There is no
validation of the index or of segment durations, and no error result. -/
def startEvent (st : AppState) (eventId : String) (startSegmentIndex : Int) : AppState :=
  { st with activeEventId := some eventId
            runningEventId := some eventId
            runningSegmentIndex := startSegmentIndex
            currentScreen := .timerRunning }

/-! Concrete fixtures used by witnesses and counterexamples. -/

def alertA : SpeechColorAlert :=
  { id := "a1", timeInSeconds := 300, color := "#EAB308",
    background := true, flash := false, sound := false, label := "5 min" }

def alertZ : SpeechColorAlert :=
  { id := "z0", timeInSeconds := 0, color := "#EF4444",
    background := true, flash := false, sound := true, label := "0 sec" }

def alertTen : SpeechColorAlert :=
  { id := "a10", timeInSeconds := 10, color := "#EF4444",
    background := true, flash := true, sound := true, label := "10 sec" }

def segDemo : Segment :=
  { id := "s1", name := "Speech", durationSeconds := 60, mode := .countdown,
    colorAlerts := [], soundEnabled := true, flashEnabled := false, tickEnabled := false }

def segA : Segment :=
  { id := "sA", name := "Opening", durationSeconds := 5, mode := .countdown,
    colorAlerts := [alertA], soundEnabled := true, flashEnabled := false, tickEnabled := false }

def segB : Segment :=
  { id := "sB", name := "QA", durationSeconds := 0, mode := .countup,
    colorAlerts := [], soundEnabled := false, flashEnabled := false, tickEnabled := false }

def segZ : Segment :=
  { id := "sZ", name := "Closing", durationSeconds := 2, mode := .countdown,
    colorAlerts := [alertZ], soundEnabled := true, flashEnabled := false, tickEnabled := false }

def segW : Segment :=
  { id := "sW", name := "Keynote", durationSeconds := 15, mode := .countdown,
    colorAlerts := [alertTen], soundEnabled := true, flashEnabled := false, tickEnabled := false }

def segUp : Segment :=
  { id := "sU", name := "Open mic", durationSeconds := 5, mode := .countup,
    colorAlerts := [], soundEnabled := false, flashEnabled := false, tickEnabled := false }

def evA : SpeechEvent :=
  { id := "e1", title := "Demo", date := "2026-01-10", startTime := "09:00",
    endTime := "10:00", segments := [segA], scheduledStartTime := none }

def evZ : SpeechEvent :=
  { id := "e2", title := "DemoZ", date := "2026-01-10", startTime := "09:00",
    endTime := "10:00", segments := [segZ], scheduledStartTime := none }

def evAB : SpeechEvent :=
  { id := "e3", title := "Two", date := "2026-01-10", startTime := "09:00",
    endTime := "10:00", segments := [segA, segB], scheduledStartTime := none }

def evS : SpeechEvent :=
  { id := "e4", title := "Sched", date := "2026-01-10", startTime := "09:00",
    endTime := "10:00", segments := [segA], scheduledStartTime := some 5000 }

def st0 : AppState :=
  { events := [evA], currentScreen := .eventSettings, activeEventId := some "e1",
    runningEventId := none, runningSegmentIndex := 0 }

/-- The screen state after: mount at segment 0 (auto-start at t=0), a tick at
t=1000 that fires alert `a1`, a tick at t=5000 that completes the segment,
and a Space-key restart of the same segment at t=6000. -/
def c3trace : ScreenState :=
  restartStep evA 6000 (screenTick evA 5000 (screenTick evA 1000 (initScreen evA 0 0)))

/-- The screen state after: mount at segment 0 (auto-start at t=0), a tick at
t=1000, and the completing tick at t=2000 on a countdown of 2s carrying an
alert at threshold 0. -/
def c5trace : ScreenState :=
  screenTick evZ 2000 (screenTick evZ 1000 (initScreen evZ 0 0))

/-- Timer state after starting at t=0 and pausing at t=1000. -/
def c7state : TimerState := pauseTimer 1000 (startTimer segDemo 0)

/-- Screen state of the two-segment event (5s countdown, then unbounded
count-up) after auto-start at t=0 and a tick at t=1000. -/
def c6state : ScreenState := screenTick evAB 1000 (initScreen evAB 0 0)

/-! Helper lemmas. -/

theorem timerTick_refs (seg : Segment) (now : Int) (s : TimerState) :
    (timerTick seg now s).startTime = s.startTime
    ∧ (timerTick seg now s).pausedAt = s.pausedAt
    ∧ (timerTick seg now s).totalPausedMs = s.totalPausedMs := by
  unfold timerTick
  split
  · exact ⟨rfl, rfl, rfl⟩
  · split
    · exact ⟨rfl, rfl, rfl⟩
    · exact ⟨rfl, rfl, rfl⟩

theorem runTimerOps_cons (seg : Segment) (s : TimerState) (op : TimerOp)
    (rest : List TimerOp) :
    runTimerOps seg s (op :: rest) = runTimerOps seg (applyTimerOp seg s op) rest := rfl

/-- Invariant of a start-free, well-formed op sequence: the start instant is
untouched and the accumulated paused milliseconds grow exactly by the
completed pause intervals the sequence describes. -/
theorem runTimerOps_bookkeeping (seg : Segment) :
    ∀ (ops : List TimerOp) (s : TimerState) (last : Int),
      noStart ops = true →
      wfOps s.pausedAt.isSome last ops = true →
      (runTimerOps seg s ops).startTime = s.startTime
      ∧ (runTimerOps seg s ops).totalPausedMs = s.totalPausedMs + pausedMsAcc s.pausedAt ops := by
  intro ops
  induction ops with
  | nil =>
      intro s last _ _
      exact ⟨rfl, by simp [runTimerOps, pausedMsAcc]⟩
  | cons op rest ih =>
      intro s last hns hwf
      cases op with
      | start t => simp [noStart] at hns
      | pause t =>
          simp only [wfOps, Bool.and_eq_true, Bool.not_eq_true'] at hwf
          obtain ⟨⟨_, hnp⟩, hrest⟩ := hwf
          have hpa : s.pausedAt = none := by
            cases h : s.pausedAt
            · rfl
            · rw [h] at hnp; simp at hnp
          have hrest2 : wfOps (pauseTimer t s).pausedAt.isSome t rest = true := by
            simp [pauseTimer, hrest]
          have := ih (pauseTimer t s) t (by simpa [noStart] using hns) hrest2
          rw [runTimerOps_cons]
          simp only [applyTimerOp]
          refine ⟨this.1, ?_⟩
          rw [this.2]
          simp [pauseTimer, hpa, pausedMsAcc]
      | resume t =>
          simp only [wfOps, Bool.and_eq_true] at hwf
          obtain ⟨⟨_, hp⟩, hrest⟩ := hwf
          obtain ⟨p, hpa⟩ := Option.isSome_iff_exists.mp hp
          have hrest2 : wfOps (resumeTimer t s).pausedAt.isSome t rest = true := by
            simp [resumeTimer, hpa, hrest]
          have := ih (resumeTimer t s) t (by simpa [noStart] using hns) hrest2
          rw [runTimerOps_cons]
          simp only [applyTimerOp]
          refine ⟨?_, ?_⟩
          · rw [this.1]; simp [resumeTimer, hpa]
          · rw [this.2]
            simp [resumeTimer, hpa, pausedMsAcc]
            ring
      | tick t =>
          simp only [wfOps, Bool.and_eq_true, Bool.not_eq_true'] at hwf
          obtain ⟨⟨_, hnp⟩, hrest⟩ := hwf
          have hpa : s.pausedAt = none := by
            cases h : s.pausedAt
            · rfl
            · rw [h] at hnp; simp at hnp
          have hfields := timerTick_refs seg t s
          have hrest2 : wfOps (timerTick seg t s).pausedAt.isSome t rest = true := by
            rw [hfields.2.1, hpa]; simpa using hrest
          have := ih (timerTick seg t s) t (by simpa [noStart] using hns) hrest2
          rw [runTimerOps_cons]
          simp only [applyTimerOp]
          refine ⟨by rw [this.1, hfields.1], ?_⟩
          rw [this.2, hfields.2.2, hfields.2.1]
          simp [pausedMsAcc]

/-- C1: for every run of a segment timer and every well-formed sequence of
start, pause, resume calls (with arbitrarily many or few delivered polling
ticks), the elapsed time observed at wall-clock instant `t` equals
`t - startInstant - (sum of completed pause intervals)`; moreover, while
paused, a tick leaves the state untouched and `pause` itself does not change
the displayed value, so the observed elapsed value stays frozen at its value
at the pause instant. -/
theorem c1_elapsed_time_correctness (seg : Segment) (ops : List TimerOp) (t0 t : Int)
    (h1 : noStart ops = true) (h2 : wfOps false t0 ops = true) :
    elapsedMsAt (runTimerOps seg (startTimer seg t0) ops) t
      = t - t0 - completedPausedMs ops
    ∧ (∀ (s2 : TimerState) (u : Int), s2.status = .paused →
        timerTick seg u s2 = s2 ∧ (pauseTimer u s2).timeInSeconds = s2.timeInSeconds) := by
  constructor
  · have h2b : wfOps (startTimer seg t0).pausedAt.isSome t0 ops = true := by
      simpa [startTimer] using h2
    have hb := runTimerOps_bookkeeping seg ops (startTimer seg t0) t0 h1 h2b
    unfold elapsedMsAt
    rw [hb.1, hb.2]
    simp [startTimer, completedPausedMs]
  · intro s2 u hp
    constructor
    · unfold timerTick
      rw [hp]
      simp
    · rfl

/-- Witness for C1: the spec's concrete scenario — start at t=0, pause at
t=4000, resume at t=7000, ticks at t=8000 and t=20000; the elapsed value
observed at wall-clock t=20000 is 20000 - 0 - 3000 = 17000 ms. -/
theorem c1_witness :
    noStart [TimerOp.pause 4000, TimerOp.resume 7000, TimerOp.tick 8000,
      TimerOp.tick 20000] = true
    ∧ wfOps false 0 [TimerOp.pause 4000, TimerOp.resume 7000, TimerOp.tick 8000,
        TimerOp.tick 20000] = true
    ∧ completedPausedMs [TimerOp.pause 4000, TimerOp.resume 7000, TimerOp.tick 8000,
        TimerOp.tick 20000] = 3000
    ∧ (elapsedMsAt (runTimerOps segDemo (startTimer segDemo 0)
          [TimerOp.pause 4000, TimerOp.resume 7000, TimerOp.tick 8000,
            TimerOp.tick 20000]) 20000
        = 20000 - 0 - completedPausedMs [TimerOp.pause 4000, TimerOp.resume 7000,
            TimerOp.tick 8000, TimerOp.tick 20000]
      ∧ (∀ (s2 : TimerState) (u : Int), s2.status = .paused →
          timerTick segDemo u s2 = s2
          ∧ (pauseTimer u s2).timeInSeconds = s2.timeInSeconds)) :=
  ⟨by decide, by decide, by decide,
    c1_elapsed_time_correctness segDemo
      [TimerOp.pause 4000, TimerOp.resume 7000, TimerOp.tick 8000, TimerOp.tick 20000]
      0 20000 (by decide) (by decide)⟩

/-- C7 counterexample: `pause()` while already paused is NOT a no-op.  After
start at t=0 and pause at t=1000, a second `pause()` at t=2000 overwrites the
recorded pause instant (changing the state), and after `resume()` at t=3000
the accumulated paused milliseconds are 1000, whereas without the duplicate
pause they are 2000 — so subsequently reported elapsed values differ
(9000 ms vs 8000 ms at wall-clock t=10000). -/
theorem c7_counterexample :
    pauseTimer 2000 c7state ≠ c7state
    ∧ (resumeTimer 3000 (pauseTimer 2000 c7state)).totalPausedMs = 1000
    ∧ (resumeTimer 3000 c7state).totalPausedMs = 2000
    ∧ elapsedMsAt (resumeTimer 3000 (pauseTimer 2000 c7state)) 10000 = 9000
    ∧ elapsedMsAt (resumeTimer 3000 c7state) 10000 = 8000 := by decide

/-- C7 as amended: `resume()` while running (no open pause) is an idempotent
no-op and raises no error; `pause()` while already paused overwrites the
recorded pause instant with the current time, so after the next `resume` the
pause credit is measured from the second pause call (`t3 - p2`) no matter
when the first pause (`p1`) happened, and subsequently reported elapsed
values grow by `p2 - p1` compared with the idempotent behavior. -/
theorem c7_amended (s : TimerState) (u p1 p2 t3 : Int)
    (hrun : s.status = .running) (hpa : s.pausedAt = none) :
    resumeTimer u s = s
    ∧ (resumeTimer t3 (pauseTimer p2 (pauseTimer p1 s))).totalPausedMs
        = s.totalPausedMs + (t3 - p2)
    ∧ (resumeTimer t3 (pauseTimer p1 s)).totalPausedMs
        = s.totalPausedMs + (t3 - p1) := by
  refine ⟨?_, by simp [pauseTimer, resumeTimer], by simp [pauseTimer, resumeTimer]⟩
  cases s
  simp_all [resumeTimer]

/-- Witness for C7's amended statement at a concrete input: timer started at
t=0 (running, no open pause); duplicate pauses at t=1000 and t=2000 then
resume at t=3000 credit 1000 ms, a single pause at t=1000 credits 2000 ms. -/
theorem c7_witness :
    (startTimer segDemo 0).status = .running
    ∧ (startTimer segDemo 0).pausedAt = none
    ∧ (resumeTimer 500 (startTimer segDemo 0) = startTimer segDemo 0
      ∧ (resumeTimer 3000 (pauseTimer 2000 (pauseTimer 1000 (startTimer segDemo 0)))).totalPausedMs
          = (startTimer segDemo 0).totalPausedMs + (3000 - 2000)
      ∧ (resumeTimer 3000 (pauseTimer 1000 (startTimer segDemo 0))).totalPausedMs
          = (startTimer segDemo 0).totalPausedMs + (3000 - 1000)) :=
  ⟨by decide, by decide,
    c7_amended (startTimer segDemo 0) 500 1000 2000 3000 (by decide) (by decide)⟩

/-- `Math.floor` characterization: `N <= floor(e / 1000)` iff `1000 * N <= e`. -/
theorem le_fdiv_1000_iff (N e : Int) : N ≤ Int.fdiv e 1000 ↔ 1000 * N ≤ e := by
  rw [Int.fdiv_eq_ediv e (by norm_num : (0:Int) ≤ 1000),
    Int.le_ediv_iff_mul_le (by norm_num : (0:Int) < 1000)]
  omega

/-- C2: completion condition of one tick from a running, armed timer.
Countdown: the tick completes exactly when `elapsedMs >= durationSeconds*1000`
(so the first tick satisfying that inequality completes the segment), the
displayed value on the completing tick is exactly 0, the displayed value is
never negative, and a countdown with `durationSeconds = 0` completes at the
first tick after start.  Count-up with positive duration: completes exactly
when elapsed seconds reach the duration.  Count-up with `durationSeconds = 0`:
the tick never leaves `running`. -/
theorem c2_completion_condition (seg : Segment) (now st : Int) (s : TimerState)
    (hrun : s.status = .running) (hst : s.startTime = some st)
    (hinit : s.initialTime = seg.durationSeconds) :
    (seg.mode = .countdown →
      ((timerTick seg now s).status = .completed
          ↔ 1000 * seg.durationSeconds ≤ now - st - s.totalPausedMs)
      ∧ ((timerTick seg now s).status = .completed →
          (timerTick seg now s).timeInSeconds = 0)
      ∧ 0 ≤ (timerTick seg now s).timeInSeconds
      ∧ (seg.durationSeconds = 0 → st + s.totalPausedMs ≤ now →
          (timerTick seg now s).status = .completed))
    ∧ (seg.mode = .countup → 0 < seg.durationSeconds →
        ((timerTick seg now s).status = .completed
          ↔ seg.durationSeconds ≤ Int.fdiv (now - st - s.totalPausedMs) 1000))
    ∧ (seg.mode = .countup → seg.durationSeconds = 0 →
        (timerTick seg now s).status = .running) := by
  have hle : seg.durationSeconds ≤ Int.fdiv (now - st - s.totalPausedMs) 1000
      ↔ 1000 * seg.durationSeconds ≤ now - st - s.totalPausedMs :=
    le_fdiv_1000_iff _ _
  refine ⟨fun hm => ?_, fun hm hd => ?_, fun hm hd => ?_⟩
  · simp only [timerTick, hrun, hst, timerTickCore, hm, hinit]
    simp only [ne_eq, not_true_eq_false, reduceCtorEq, if_false, ite_false]
    constructor
    · constructor
      · intro h
        rw [← hle]
        by_contra hc
        push_neg at hc
        have : ¬ max 0 (seg.durationSeconds - Int.fdiv (now - st - s.totalPausedMs) 1000) ≤ 0 := by
          omega
        simp only [this, if_false] at h
        exact absurd h (by simp)
      · intro h
        have : max 0 (seg.durationSeconds - Int.fdiv (now - st - s.totalPausedMs) 1000) ≤ 0 := by
          rw [← hle] at h
          omega
        simp [this]
    · refine ⟨?_, ?_, ?_⟩
      · intro h
        by_cases hc : max 0 (seg.durationSeconds - Int.fdiv (now - st - s.totalPausedMs) 1000) ≤ 0
        · simp only [hc, if_true]
          omega
        · simp only [hc, if_false] at h
          exact absurd h (by simp)
      · by_cases hc : max 0 (seg.durationSeconds - Int.fdiv (now - st - s.totalPausedMs) 1000) ≤ 0
        · simp only [hc, if_true]; omega
        · simp only [hc, if_false]; omega
      · intro h0 hnow
        have hes : 0 ≤ Int.fdiv (now - st - s.totalPausedMs) 1000 := by
          have := (le_fdiv_1000_iff 0 (now - st - s.totalPausedMs)).mpr (by omega)
          omega
        have : max 0 (seg.durationSeconds - Int.fdiv (now - st - s.totalPausedMs) 1000) ≤ 0 := by
          omega
        simp [this]
  · simp only [timerTick, hrun, hst, timerTickCore, hm]
    simp only [ne_eq, not_true_eq_false, reduceCtorEq, if_false, ite_false]
    constructor
    · intro h
      by_contra hc
      rw [if_neg (by omega)] at h
      exact absurd h (by simp)
    · intro h
      rw [if_pos ⟨hd, h⟩]
  · simp only [timerTick, hrun, hst, timerTickCore, hm]
    simp only [ne_eq, not_true_eq_false, reduceCtorEq, if_false, ite_false]
    rw [if_neg (by omega)]

/-- Witness for C2: countdown of 15 s started at t=0; instantiating the
completion condition at a tick at t=15000 (elapsedMs = 15000 >= 15*1000). -/
theorem c2_witness :
    (startTimer segW 0).status = .running
    ∧ (startTimer segW 0).startTime = some 0
    ∧ (startTimer segW 0).initialTime = segW.durationSeconds
    ∧ ((segW.mode = .countdown →
        ((timerTick segW 15000 (startTimer segW 0)).status = .completed
            ↔ 1000 * segW.durationSeconds ≤ 15000 - 0 - (startTimer segW 0).totalPausedMs)
        ∧ ((timerTick segW 15000 (startTimer segW 0)).status = .completed →
            (timerTick segW 15000 (startTimer segW 0)).timeInSeconds = 0)
        ∧ 0 ≤ (timerTick segW 15000 (startTimer segW 0)).timeInSeconds
        ∧ (segW.durationSeconds = 0 → 0 + (startTimer segW 0).totalPausedMs ≤ 15000 →
            (timerTick segW 15000 (startTimer segW 0)).status = .completed))
      ∧ (segW.mode = .countup → 0 < segW.durationSeconds →
          ((timerTick segW 15000 (startTimer segW 0)).status = .completed
            ↔ segW.durationSeconds
                ≤ Int.fdiv (15000 - 0 - (startTimer segW 0).totalPausedMs) 1000))
      ∧ (segW.mode = .countup → segW.durationSeconds = 0 →
          (timerTick segW 15000 (startTimer segW 0)).status = .running)) :=
  ⟨by decide, by decide, by decide,
    c2_completion_condition segW 15000 0 (startTimer segW 0)
      (by decide) (by decide) (by decide)⟩

/-- C10: for a count-up segment with positive `durationSeconds`, a tick never
displays more than `durationSeconds`: even when the computed elapsed seconds
jump far past the bound, the completing tick clamps the displayed value to
exactly `durationSeconds` (the clamp and the `completed` status land in the
same batched update), and the initial count-up display is 0. -/
theorem c10_countup_display_clamped (seg : Segment) (now st : Int) (s : TimerState)
    (hmode : seg.mode = .countup) (hd : 0 < seg.durationSeconds)
    (hrun : s.status = .running) (hst : s.startTime = some st) :
    (timerTick seg now s).timeInSeconds ≤ seg.durationSeconds
    ∧ ((timerTick seg now s).status = .completed →
        (timerTick seg now s).timeInSeconds = seg.durationSeconds)
    ∧ initialDisplay seg = 0 := by
  refine ⟨?_, ?_, by simp [initialDisplay, hmode]⟩
  · simp only [timerTick, hrun, hst, timerTickCore, hmode]
    simp only [ne_eq, not_true_eq_false, reduceCtorEq, if_false, ite_false]
    by_cases hc : seg.durationSeconds > 0
        ∧ Int.fdiv (now - st - s.totalPausedMs) 1000 ≥ seg.durationSeconds
    · rw [if_pos hc]
    · rw [if_neg hc]
      push_neg at hc
      have := hc hd
      omega
  · simp only [timerTick, hrun, hst, timerTickCore, hmode]
    simp only [ne_eq, not_true_eq_false, reduceCtorEq, if_false, ite_false]
    by_cases hc : seg.durationSeconds > 0
        ∧ Int.fdiv (now - st - s.totalPausedMs) 1000 ≥ seg.durationSeconds
    · rw [if_pos hc]
      intro
      rfl
    · rw [if_neg hc]
      intro h
      exact absurd h (by simp)

/-- Witness for C10: count-up of 5 s started at t=0 with a tick delivered
only at t=100000 (elapsed seconds jumped to 100, far past 5): the displayed
value is clamped at 5 and the status is completed. -/
theorem c10_witness :
    segUp.mode = .countup
    ∧ 0 < segUp.durationSeconds
    ∧ (startTimer segUp 0).status = .running
    ∧ (startTimer segUp 0).startTime = some 0
    ∧ (timerTick segUp 100000 (startTimer segUp 0)).timeInSeconds = 5
    ∧ (timerTick segUp 100000 (startTimer segUp 0)).status = .completed
    ∧ ((timerTick segUp 100000 (startTimer segUp 0)).timeInSeconds ≤ segUp.durationSeconds
      ∧ ((timerTick segUp 100000 (startTimer segUp 0)).status = .completed →
          (timerTick segUp 100000 (startTimer segUp 0)).timeInSeconds = segUp.durationSeconds)
      ∧ initialDisplay segUp = 0) :=
  ⟨by decide, by decide, by decide, by decide, by decide, by decide,
    c10_countup_display_clamped segUp 100000 0 (startTimer segUp 0)
      (by decide) (by decide) (by decide) (by decide)⟩

theorem insertAlertBy_perm (le : SpeechColorAlert → SpeechColorAlert → Bool)
    (a : SpeechColorAlert) (l : List SpeechColorAlert) :
    (insertAlertBy le a l).Perm (a :: l) := by
  induction l with
  | nil => exact List.Perm.refl _
  | cons b r ih =>
      unfold insertAlertBy
      split
      · exact List.Perm.refl _
      · exact (ih.cons b).trans (List.Perm.swap a b r)

theorem sortAlertsBy_perm (le : SpeechColorAlert → SpeechColorAlert → Bool)
    (l : List SpeechColorAlert) : (sortAlertsBy le l).Perm l := by
  induction l with
  | nil => exact List.Perm.refl _
  | cons a r ih =>
      have : sortAlertsBy le (a :: r) = insertAlertBy le a (sortAlertsBy le r) := rfl
      rw [this]
      exact (insertAlertBy_perm le a (sortAlertsBy le r)).trans (ih.cons a)

theorem sortedAlerts_perm (seg : Segment) : (sortedAlerts seg).Perm seg.colorAlerts := by
  unfold sortedAlerts
  cases seg.mode <;> exact sortAlertsBy_perm _ _

/-- Everything already in the fired set stays in it through one evaluator run. -/
theorem runAlertLoop_fired_mono (mode : TimerMode) (t2 : Int) :
    ∀ (alerts : List SpeechColorAlert) (fired : List String) (color : String) (x : String),
      x ∈ fired → x ∈ (runAlertLoop mode t2 fired color alerts).triggeredAlertIds := by
  intro alerts
  induction alerts with
  | nil => intro fired color x hx; exact hx
  | cons a rest ih =>
      intro fired color x hx
      unfold runAlertLoop
      split
      · exact ih fired color x hx
      · split
        · exact ih (a.id :: fired) _ x (List.mem_cons_of_mem _ hx)
        · exact ih fired color x hx

/-- An already-fired alert id is never reported as newly fired. -/
theorem runAlertLoop_no_refire (mode : TimerMode) (t2 : Int) :
    ∀ (alerts : List SpeechColorAlert) (fired : List String) (color : String) (x : String),
      x ∈ fired → x ∉ (runAlertLoop mode t2 fired color alerts).newlyFired := by
  intro alerts
  induction alerts with
  | nil => intro fired color x hx; simp [runAlertLoop]
  | cons a rest ih =>
      intro fired color x hx
      unfold runAlertLoop
      split
      · exact ih fired color x hx
      · split
        · rename_i hnf _
          intro hmem
          rcases List.mem_cons.mp hmem with h | h
          · exact hnf (h ▸ hx)
          · exact ih (a.id :: fired) _ x (List.mem_cons_of_mem _ hx) h
        · exact ih fired color x hx

/-- Newly fired ids come from the alert list. -/
theorem runAlertLoop_newly_subset (mode : TimerMode) (t2 : Int) :
    ∀ (alerts : List SpeechColorAlert) (fired : List String) (color : String) (x : String),
      x ∈ (runAlertLoop mode t2 fired color alerts).newlyFired
      → x ∈ alerts.map fun al => al.id := by
  intro alerts
  induction alerts with
  | nil => intro fired color x hx; simp [runAlertLoop] at hx
  | cons a rest ih =>
      intro fired color x hx
      unfold runAlertLoop at hx
      split at hx
      · exact List.mem_cons_of_mem _ (ih fired color x hx)
      · split at hx
        · rcases List.mem_cons.mp hx with h | h
          · exact h ▸ List.mem_cons_self _ _
          · exact List.mem_cons_of_mem _ (ih (a.id :: fired) _ x h)
        · exact List.mem_cons_of_mem _ (ih fired color x hx)

/-- Core of the crossing-based evaluator: with unique alert ids, a listed
alert is newly fired by one run exactly when it was not yet fired and its
threshold condition holds at the current value. -/
theorem runAlertLoop_newly_iff (mode : TimerMode) (t2 : Int) :
    ∀ (alerts : List SpeechColorAlert) (fired : List String) (color : String)
      (a : SpeechColorAlert),
      (alerts.map fun al => al.id).Nodup → a ∈ alerts →
      (a.id ∈ (runAlertLoop mode t2 fired color alerts).newlyFired
        ↔ (a.id ∉ fired ∧ alertShouldTrigger mode t2 a = true)) := by
  intro alerts
  induction alerts with
  | nil => intro fired color a _ ha; simp at ha
  | cons b rest ih =>
      intro fired color a hnd ha
      rw [List.map_cons, List.nodup_cons] at hnd
      obtain ⟨hbid, hndr⟩ := hnd
      unfold runAlertLoop
      rcases List.mem_cons.mp ha with hab | har
      · subst hab
        split
        · rename_i hin
          constructor
          · intro h
            exact absurd h (runAlertLoop_no_refire mode t2 rest fired color a.id hin)
          · rintro ⟨hnin, -⟩
            exact absurd hin hnin
        · rename_i hnin
          split
          · rename_i htrig
            constructor
            · intro _
              exact ⟨hnin, htrig⟩
            · intro _
              exact List.mem_cons_self _ _
          · rename_i hntrig
            constructor
            · intro h
              have := runAlertLoop_newly_subset mode t2 rest fired color a.id h
              exact absurd this hbid
            · rintro ⟨-, htrig⟩
              exact absurd htrig hntrig
      · have haid : a.id ∈ rest.map fun al => al.id := List.mem_map_of_mem _ har
        have hane : a.id ≠ b.id := fun h => hbid (h ▸ haid)
        split
        · exact ih fired color a hndr har
        · split
          · simp only [List.mem_cons]
            rw [ih (b.id :: fired) _ a hndr har]
            simp only [List.mem_cons]
            constructor
            · rintro (h | ⟨hnin, htrig⟩)
              · exact absurd h hane
              · exact ⟨fun hin => hnin (Or.inr hin), htrig⟩
            · rintro ⟨hnin, htrig⟩
              exact Or.inr ⟨fun h => h.elim hane hnin, htrig⟩
          · exact ih fired color a hndr har

/-- C4: alert firing is crossing-based.  For a segment with unique alert ids,
one evaluator run newly fires an alert exactly when it is not yet in the
fired set and its crossing condition holds — countdown: current remaining
`<=` threshold; count-up: current elapsed `>=` threshold — so a tick sequence
that jumps past a threshold still fires that alert (exactly once: an id in
the fired set is never re-fired), and a countdown alert whose threshold
exceeds the initial remaining value fires at the first evaluation.  On every
tick that leaves the timer running, the screen runs exactly this evaluator on
the freshly recomputed displayed value. -/
theorem c4_crossing_based_firing (seg : Segment) (t2 : Int) (fired : List String)
    (color : String) (a : SpeechColorAlert)
    (hnd : (seg.colorAlerts.map fun al => al.id).Nodup) (ha : a ∈ seg.colorAlerts) :
    (a.id ∈ (runAlertLoop seg.mode t2 fired color (sortedAlerts seg)).newlyFired
      ↔ (a.id ∉ fired ∧ alertShouldTrigger seg.mode t2 a = true))
    ∧ (a.id ∈ fired →
        a.id ∉ (runAlertLoop seg.mode t2 fired color (sortedAlerts seg)).newlyFired)
    ∧ (∀ (ev : SpeechEvent) (now : Int) (s : ScreenState),
        currentSegment ev s.currentSegmentIndex = some seg →
        s.timer.status = .running →
        (timerTick seg now s.timer).status = .running →
        s.triggeredAlertIds = fired → s.activeAlertColor = color →
        (screenTick ev now s).triggeredAlertIds
          = (runAlertLoop seg.mode (timerTick seg now s.timer).timeInSeconds
              fired color (sortedAlerts seg)).triggeredAlertIds) := by
  have hperm := sortedAlerts_perm seg
  have hndS : ((sortedAlerts seg).map fun al => al.id).Nodup :=
    ((hperm.map fun al => al.id).nodup_iff).mpr hnd
  have haS : a ∈ sortedAlerts seg := hperm.mem_iff.mpr ha
  refine ⟨runAlertLoop_newly_iff seg.mode t2 (sortedAlerts seg) fired color a hndS haS,
    fun hin => runAlertLoop_no_refire seg.mode t2 (sortedAlerts seg) fired color a.id hin,
    ?_⟩
  intro ev now s hseg hrun hrun2 hfired hcolor
  unfold screenTick
  rw [hseg]
  simp only [hrun, ne_eq, not_true_eq_false, if_false, ite_false, hrun2, reduceCtorEq]
  unfold alertCheckStep
  simp only [hrun2, ne_eq, not_true_eq_false, false_or]
  subst hfired hcolor
  split
  · rename_i hemp
    rw [hemp]
    rfl
  · rfl

/-- Witness for C4: countdown of 15 s with an alert at threshold 10; a tick
jumps the remaining value straight to 8 (skipping 12..9): the alert with id
`a10` is newly fired, and would never re-fire once in the fired set. -/
theorem c4_witness :
    (segW.colorAlerts.map fun al => al.id).Nodup
    ∧ alertTen ∈ segW.colorAlerts
    ∧ ((alertTen.id ∈ (runAlertLoop segW.mode 8 [] "" (sortedAlerts segW)).newlyFired
        ↔ (alertTen.id ∉ ([] : List String)
            ∧ alertShouldTrigger segW.mode 8 alertTen = true))
      ∧ (alertTen.id ∈ ([] : List String) →
          alertTen.id ∉ (runAlertLoop segW.mode 8 [] "" (sortedAlerts segW)).newlyFired)
      ∧ (∀ (ev : SpeechEvent) (now : Int) (s : ScreenState),
          currentSegment ev s.currentSegmentIndex = some segW →
          s.timer.status = .running →
          (timerTick segW now s.timer).status = .running →
          s.triggeredAlertIds = [] → s.activeAlertColor = "" →
          (screenTick ev now s).triggeredAlertIds
            = (runAlertLoop segW.mode (timerTick segW now s.timer).timeInSeconds
                [] "" (sortedAlerts segW)).triggeredAlertIds)) :=
  ⟨by decide, by decide,
    c4_crossing_based_firing segW 8 [] "" alertTen (by decide) (by decide)⟩

theorem handleSegmentComplete_preserves (ev : SpeechEvent) (s : ScreenState) :
    (handleSegmentComplete ev s).triggeredAlertIds = s.triggeredAlertIds
    ∧ (handleSegmentComplete ev s).timer = s.timer
    ∧ (handleSegmentComplete ev s).currentSegmentIndex = s.currentSegmentIndex := by
  unfold handleSegmentComplete
  split
  · exact ⟨rfl, rfl, rfl⟩
  · split
    · exact ⟨rfl, rfl, rfl⟩
    · exact ⟨rfl, rfl, rfl⟩

theorem handleSegmentComplete_color (ev : SpeechEvent) (s : ScreenState) :
    (handleSegmentComplete ev s).activeAlertColor = s.activeAlertColor := by
  unfold handleSegmentComplete
  split
  · rfl
  · split <;> rfl

theorem alertCheckStep_fired_mono (seg : Segment) (s : ScreenState) (x : String)
    (hx : x ∈ s.triggeredAlertIds) : x ∈ (alertCheckStep seg s).triggeredAlertIds := by
  unfold alertCheckStep
  split
  · exact hx
  · exact runAlertLoop_fired_mono seg.mode s.timer.timeInSeconds (sortedAlerts seg)
      s.triggeredAlertIds s.activeAlertColor x hx

/-- C3 counterexample: the fired-alert set is NOT cleared when the same
segment restarts.  A 5s countdown with alert `a1` (threshold 300) runs to
completion (firing `a1`), then is restarted via the Space-key start; after
the restart the timer is running afresh but the fired set still contains
`a1`, and on the next tick `a1` does not fire again. -/
theorem c3_counterexample :
    c3trace.timer.status = .running
    ∧ c3trace.timer.startTime = some 6000
    ∧ c3trace.triggeredAlertIds = ["a1"]
    ∧ (screenTick evA 7000 c3trace).triggeredAlertIds = ["a1"]
    ∧ alertShouldTrigger segA.mode (screenTick evA 7000 c3trace).timer.timeInSeconds alertA
        = true := by decide

/-- C3 as amended: within one segment run the fired-alert set never loses an
element (monotone under ticks and under a same-segment restart), it is reset
exactly when the active segment changes — advancing through a transition, or
mounting the screen anew — while a restart of the same segment keeps the
already-fired ids, so those alerts do not fire again. -/
theorem c3_fired_set_lifecycle :
    (∀ (ev : SpeechEvent) (now : Int) (s : ScreenState) (x : String),
      x ∈ s.triggeredAlertIds → x ∈ (screenTick ev now s).triggeredAlertIds)
    ∧ (∀ (ev : SpeechEvent) (now : Int) (s : ScreenState),
        (handleTransitionComplete ev now s).triggeredAlertIds = [])
    ∧ (∀ (ev : SpeechEvent) (idx now : Int),
        (initScreen ev idx now).triggeredAlertIds = [])
    ∧ (∀ (ev : SpeechEvent) (now : Int) (s : ScreenState) (x : String),
        x ∈ s.triggeredAlertIds → x ∈ (restartStep ev now s).triggeredAlertIds) := by
  refine ⟨?_, ?_, ?_, ?_⟩
  · intro ev now s x hx
    unfold screenTick
    split
    · exact hx
    · split
      · exact hx
      · rename_i seg _ _
        apply alertCheckStep_fired_mono
        split
        · rw [(handleSegmentComplete_preserves ev _).1]
          exact hx
        · exact hx
  · intro ev now s
    unfold handleTransitionComplete
    cases h : currentSegment ev (s.currentSegmentIndex + 1) <;> simp [h]
  · intro ev idx now
    rfl
  · intro ev now s x hx
    unfold restartStep
    split
    · exact hx
    · split
      · exact alertCheckStep_fired_mono _ _ x hx
      · exact hx

/-- Witness for C3's amended statement: the fired id `a1` survives the tick
at t=7000 after the restart in `c3trace`. -/
theorem c3_witness :
    "a1" ∈ c3trace.triggeredAlertIds
    ∧ "a1" ∈ (screenTick evA 7000 c3trace).triggeredAlertIds :=
  ⟨by decide, c3_fired_set_lifecycle.1 evA 7000 c3trace "a1" (by decide)⟩

/-- C5 counterexample: an alert at the terminal threshold does NOT fire
before the segment is marked completed.  A 2s countdown with an alert at
threshold 0 ticks at t=1000 (remaining 1, no fire) and t=2000: the completing
tick sets status `completed` in the same batched update as the displayed 0,
the alert effect then sees the non-running status and returns, so the fired
set stays empty even though the threshold condition holds at the displayed
value. -/
theorem c5_counterexample :
    c5trace.timer.status = .completed
    ∧ c5trace.timer.timeInSeconds = 0
    ∧ c5trace.allComplete = true
    ∧ alertShouldTrigger segZ.mode c5trace.timer.timeInSeconds alertZ = true
    ∧ c5trace.triggeredAlertIds = [] := by decide

/-- C5 as amended: within one tick, elapsed-time recomputation and the
completion check both happen inside the interval callback, and alert
evaluation runs only afterwards, gated on the timer still being `running`;
hence on a completing tick no alert is evaluated at all and the fired set is
unchanged — an alert whose threshold equals the terminal value does not fire
on that tick. -/
theorem c5_alert_order (ev : SpeechEvent) (now : Int) (s : ScreenState) (seg : Segment)
    (hseg : currentSegment ev s.currentSegmentIndex = some seg)
    (hcomp : (timerTick seg now s.timer).status = .completed) :
    (screenTick ev now s).triggeredAlertIds = s.triggeredAlertIds
    ∧ (screenTick ev now s).activeAlertColor = s.activeAlertColor := by
  unfold screenTick
  rw [hseg]
  by_cases hrun : s.timer.status = .running
  · simp only [hrun, ne_eq, not_true_eq_false, if_false, ite_false, hcomp, if_true, ite_true]
    unfold alertCheckStep
    rw [if_pos (Or.inl (by
      rw [(handleSegmentComplete_preserves ev _).2.1, hcomp]
      simp))]
    exact ⟨(handleSegmentComplete_preserves ev _).1, handleSegmentComplete_color ev _⟩
  · simp only [ne_eq, hrun, not_false_eq_true, if_true, ite_true]
    constructor <;> trivial

/-- Witness for C5's amended statement: the completing tick of `evZ` at
t=2000 leaves the fired set and alert color untouched. -/
theorem c5_witness :
    currentSegment evZ (screenTick evZ 1000 (initScreen evZ 0 0)).currentSegmentIndex
        = some segZ
    ∧ (timerTick segZ 2000 (screenTick evZ 1000 (initScreen evZ 0 0)).timer).status
        = .completed
    ∧ ((screenTick evZ 2000 (screenTick evZ 1000 (initScreen evZ 0 0))).triggeredAlertIds
        = (screenTick evZ 1000 (initScreen evZ 0 0)).triggeredAlertIds
      ∧ (screenTick evZ 2000 (screenTick evZ 1000 (initScreen evZ 0 0))).activeAlertColor
        = (screenTick evZ 1000 (initScreen evZ 0 0)).activeAlertColor) :=
  ⟨by decide, by decide,
    c5_alert_order evZ 2000 (screenTick evZ 1000 (initScreen evZ 0 0)) segZ
      (by decide) (by decide)⟩

/-- On a tick that completes the segment, the screen step is exactly
`handleSegmentComplete` applied after the timer update (the alert effect is
skipped because the status is no longer running). -/
theorem screenTick_completed (ev : SpeechEvent) (now : Int) (s : ScreenState)
    (seg : Segment) (hseg : currentSegment ev s.currentSegmentIndex = some seg)
    (hrun : s.timer.status = .running)
    (hcomp : (timerTick seg now s.timer).status = .completed) :
    screenTick ev now s
      = handleSegmentComplete ev { s with timer := timerTick seg now s.timer } := by
  unfold screenTick
  rw [hseg]
  simp only [hrun, ne_eq, not_true_eq_false, if_false, ite_false, hcomp, if_true, ite_true]
  unfold alertCheckStep
  rw [if_pos (Or.inl (by
    rw [(handleSegmentComplete_preserves ev _).2.1, hcomp]
    simp))]

/-- C6: sequencing on segment completion.  The transition overlay lasts the
fixed 2.5 s (`onComplete` at the first poll with elapsed >= 2500 ms).  When a
non-last segment's tick completes it, the screen enters the transitioning
phase without touching the segment index; when the last segment's tick
completes it, the whole event is marked complete and nothing advances.  On
transition completion the index increments by exactly one and the next
segment gets a fresh auto-started runner: status running, start instant now,
zero paused credit, initial display value, and an empty fired-alert set. -/
theorem c6_sequencer_advance (ev : SpeechEvent) (now : Int) (s : ScreenState)
    (seg : Segment) (hseg : currentSegment ev s.currentSegmentIndex = some seg)
    (hrun : s.timer.status = .running) (hw : s.isWaitingSchedule = false)
    (hcomp : (timerTick seg now s.timer).status = .completed) :
    transitionDurationMs = 2500
    ∧ (∀ startT u : Int, transitionComplete startT u = true ↔ startT + 2500 ≤ u)
    ∧ (s.currentSegmentIndex < (ev.segments.length : Int) - 1 →
        (screenTick ev now s).isTransitioning = true
        ∧ (screenTick ev now s).currentSegmentIndex = s.currentSegmentIndex
        ∧ (screenTick ev now s).allComplete = s.allComplete)
    ∧ (¬ s.currentSegmentIndex < (ev.segments.length : Int) - 1 →
        (screenTick ev now s).allComplete = true
        ∧ (screenTick ev now s).isTransitioning = s.isTransitioning
        ∧ (screenTick ev now s).currentSegmentIndex = s.currentSegmentIndex)
    ∧ (∀ (seg2 : Segment) (u : Int),
        currentSegment ev (s.currentSegmentIndex + 1) = some seg2 →
        (handleTransitionComplete ev u s).currentSegmentIndex = s.currentSegmentIndex + 1
        ∧ (handleTransitionComplete ev u s).isTransitioning = false
        ∧ (handleTransitionComplete ev u s).triggeredAlertIds = []
        ∧ (handleTransitionComplete ev u s).timer = startTimer seg2 u) := by
  have hstep := screenTick_completed ev now s seg hseg hrun hcomp
  have hseg1 : currentSegment ev
      ({ s with timer := timerTick seg now s.timer } : ScreenState).currentSegmentIndex
      = some seg := hseg
  refine ⟨rfl, ?_, ?_, ?_, ?_⟩
  · intro startT u
    unfold transitionComplete transitionDurationMs
    constructor
    · intro h
      have := of_decide_eq_true h
      omega
    · intro h
      exact decide_eq_true (by omega)
  · intro hlt
    rw [hstep]
    unfold handleSegmentComplete
    rw [hseg1]
    rw [if_pos hlt]
    exact ⟨rfl, rfl, rfl⟩
  · intro hnlt
    rw [hstep]
    unfold handleSegmentComplete
    rw [hseg1]
    rw [if_neg hnlt]
    exact ⟨rfl, rfl, rfl⟩
  · intro seg2 u hseg2
    unfold handleTransitionComplete
    simp only [hseg2]
    refine ⟨trivial, trivial, trivial, ?_⟩
    simp [resetForSegment, hw]


/-- Witness for C6: segment A of `evAB` completes on the tick at t=5000;
instantiating the sequencing theorem there. -/
theorem c6_witness :
    currentSegment evAB c6state.currentSegmentIndex = some segA
    ∧ c6state.timer.status = .running
    ∧ c6state.isWaitingSchedule = false
    ∧ (timerTick segA 5000 c6state.timer).status = .completed
    ∧ (transitionDurationMs = 2500
      ∧ (∀ startT u : Int, transitionComplete startT u = true ↔ startT + 2500 ≤ u)
      ∧ (c6state.currentSegmentIndex < (evAB.segments.length : Int) - 1 →
          (screenTick evAB 5000 c6state).isTransitioning = true
          ∧ (screenTick evAB 5000 c6state).currentSegmentIndex = c6state.currentSegmentIndex
          ∧ (screenTick evAB 5000 c6state).allComplete = c6state.allComplete)
      ∧ (¬ c6state.currentSegmentIndex < (evAB.segments.length : Int) - 1 →
          (screenTick evAB 5000 c6state).allComplete = true
          ∧ (screenTick evAB 5000 c6state).isTransitioning = c6state.isTransitioning
          ∧ (screenTick evAB 5000 c6state).currentSegmentIndex = c6state.currentSegmentIndex)
      ∧ (∀ (seg2 : Segment) (u : Int),
          currentSegment evAB (c6state.currentSegmentIndex + 1) = some seg2 →
          (handleTransitionComplete evAB u c6state).currentSegmentIndex
              = c6state.currentSegmentIndex + 1
          ∧ (handleTransitionComplete evAB u c6state).isTransitioning = false
          ∧ (handleTransitionComplete evAB u c6state).triggeredAlertIds = []
          ∧ (handleTransitionComplete evAB u c6state).timer = startTimer seg2 u)) :=
  ⟨by decide, by decide, by decide, by decide,
    c6_sequencer_advance evAB 5000 c6state segA
      (by decide) (by decide) (by decide) (by decide)⟩

/-- C8 counterexample: starting playback from an out-of-range segment index
is NOT rejected.  `startEvent` on a one-segment event with index 5 mutates
the state (so it is not a rejection-without-mutation), records the index
unclamped, switches to the running screen, and returns no error value; the
running screen then resolves the current segment to null. -/
theorem c8_counterexample :
    startEvent st0 "e1" 5 ≠ st0
    ∧ (startEvent st0 "e1" 5).runningSegmentIndex = 5
    ∧ (startEvent st0 "e1" 5).currentScreen = .timerRunning
    ∧ (evA.segments.length : Int) ≤ 5
    ∧ currentSegment evA 5 = none := by decide

/-- C8 as amended: `startEvent` performs no validation at the call boundary —
for every state, event id and index (in range or not, negative or not) it
unconditionally stores the index, switches to the running screen and mutates
the running/active ids, informing the caller of nothing; an out-of-range or
negative index is not clamped but simply resolves to a null current segment
on the running screen. -/
theorem c8_no_validation (st : AppState) (eid : String) (idx : Int) :
    (startEvent st eid idx).runningSegmentIndex = idx
    ∧ (startEvent st eid idx).currentScreen = .timerRunning
    ∧ (startEvent st eid idx).runningEventId = some eid
    ∧ (startEvent st eid idx).events = st.events
    ∧ (∀ ev : SpeechEvent, (ev.segments.length : Int) ≤ idx → currentSegment ev idx = none)
    ∧ (idx < 0 → ∀ ev : SpeechEvent, currentSegment ev idx = none) := by
  refine ⟨rfl, rfl, rfl, rfl, ?_, ?_⟩
  · intro ev hlen
    unfold currentSegment
    rw [if_pos (by omega)]
    exact List.get?_eq_none.mpr (by omega)
  · intro hneg ev
    unfold currentSegment
    rw [if_neg (by omega)]

/-- Witness for C8's amended statement at the concrete out-of-range call. -/
theorem c8_witness :
    (startEvent st0 "e1" 7).runningSegmentIndex = 7
    ∧ (startEvent st0 "e1" 7).currentScreen = .timerRunning
    ∧ (startEvent st0 "e1" 7).runningEventId = some "e1"
    ∧ (startEvent st0 "e1" 7).events = st0.events
    ∧ (∀ ev : SpeechEvent, (ev.segments.length : Int) ≤ 7 → currentSegment ev 7 = none)
    ∧ ((7 : Int) < 0 → ∀ ev : SpeechEvent, currentSegment ev 7 = none) :=
  c8_no_validation st0 "e1" 7

/-- C9: the scheduled-start gate.  If the event's scheduled start is set and
strictly in the future at mount time, the phase is waiting immediately and
the first segment does not auto-start (timer idle).  A schedule check at
`now` releases the gate exactly when `now >= scheduledStartTime` — never
earlier (while it stays earlier the gate and the timer are untouched) — and
on release the current segment gets a freshly auto-started runner, as if
started normally. -/
theorem c9_schedule_gate (ev : SpeechEvent) (idx now0 now sched : Int) (s : ScreenState)
    (hs : ev.scheduledStartTime = some sched) :
    (now0 < sched →
      (initScreen ev idx now0).isWaitingSchedule = true
      ∧ (initScreen ev idx now0).timer.status = .idle)
    ∧ (s.isWaitingSchedule = true → now < sched →
        (scheduleTick ev now s).isWaitingSchedule = true
        ∧ (scheduleTick ev now s).timer = s.timer)
    ∧ (s.isWaitingSchedule = true → sched ≤ now →
        (scheduleTick ev now s).isWaitingSchedule = false
        ∧ (∀ seg : Segment, currentSegment ev s.currentSegmentIndex = some seg →
            (scheduleTick ev now s).timer = startTimer seg now)) := by
  refine ⟨fun hfut => ?_, fun hw hearly => ?_, fun hw hrel => ?_⟩
  · have hwinit : initialIsWaitingSchedule ev now0 = true := by
      unfold initialIsWaitingSchedule
      rw [hs]
      exact decide_eq_true hfut
    constructor
    · unfold initScreen
      simp only [hwinit]
    · unfold initScreen
      simp only [hwinit]
      cases h : currentSegment ev idx
      · simp [h, emptyTimer]
      · simp [h, resetForSegment]
  · unfold scheduleTick
    rw [hs]
    simp only [hw, Bool.not_true, Bool.false_eq_true, if_false, ite_false]
    rw [if_neg (by omega)]
    exact ⟨hw, rfl⟩
  · unfold scheduleTick
    rw [hs]
    simp only [hw, Bool.not_true, Bool.false_eq_true, if_false, ite_false]
    rw [if_pos (by omega)]
    refine ⟨rfl, fun seg hseg => ?_⟩
    simp [hseg, resetForSegment]

/-- Witness for C9: event scheduled at epoch 5000 mounted at t=0 — waiting
and idle; from the waiting state, the check at t=5000 releases the gate and
auto-starts segment `sA`. -/
theorem c9_witness :
    evS.scheduledStartTime = some 5000
    ∧ (((0 : Int) < 5000 →
        (initScreen evS 0 0).isWaitingSchedule = true
        ∧ (initScreen evS 0 0).timer.status = .idle)
      ∧ ((initScreen evS 0 0).isWaitingSchedule = true → (5000 : Int) < 5000 →
          (scheduleTick evS 5000 (initScreen evS 0 0)).isWaitingSchedule = true
          ∧ (scheduleTick evS 5000 (initScreen evS 0 0)).timer = (initScreen evS 0 0).timer)
      ∧ ((initScreen evS 0 0).isWaitingSchedule = true → (5000 : Int) ≤ 5000 →
          (scheduleTick evS 5000 (initScreen evS 0 0)).isWaitingSchedule = false
          ∧ (∀ seg : Segment,
              currentSegment evS (initScreen evS 0 0).currentSegmentIndex = some seg →
              (scheduleTick evS 5000 (initScreen evS 0 0)).timer = startTimer seg 5000))) :=
  ⟨by decide, c9_schedule_gate evS 0 0 5000 5000 (initScreen evS 0 0) (by decide)⟩
